import Mathlib

/-!
Shallow embedding of the transfer engine and peer-connection state machine of
the dctoolkit library (files `conn_peer.go`, `download.go`, `upload.go`),
together with theorems settling the specification claims about them.

Conventions:
* Go `string` is Lean `String`; Go `uint64`/`uint` are `Nat` (with explicit
  `% 2^64` where a wrap-around is reachable); Go `int64` is `Int`.
* Fallible Go functions become `Except String _` / `Option _`.
* Effects on the operating system (file create/open/seek/rename results) are
  passed in as explicit boolean inputs.
-/

namespace Dctoolkit

/-- Key of the peer-connection index of the client (`nickDirectionPair`,
conn_peer.go). -/
structure nickDirectionPair where
  nick : String
  direction : String
deriving DecidableEq, Repr

/-- Outcome of the `msgNmdcKey` direction-election block of
`connPeer.handleMessage` (conn_peer.go, lines 455-482): on success, the
negotiated local direction together with whether a fresh connection request
(`peerRequestConnection`) was issued for a still-pending download; on failure
the error message.  `hasPendingDownload` stands for
`client.downloadPendingByPeer(peer) != nil` at the moment of the check. -/
def nmdcKeyDirection (localDirection remoteDirection : String)
    (localBet remoteBet : Nat) (hasPendingDownload : Bool) :
    Except String (String × Bool) :=
  if localDirection = "upload" ∧ remoteDirection = "download" then
    .ok ("upload", false)
  else if localDirection = "download" ∧ remoteDirection = "upload" then
    .ok ("download", false)
  else if localDirection = "download" ∧ remoteDirection = "download" then
    if localBet > remoteBet then
      .ok ("download", false)
    else if localBet < remoteBet then
      .ok ("upload", hasPendingDownload)
    else
      .error "equal random numbers"
  else
    .error "double upload request"

/-- The direction-election rule as the specification words it (§4.5
"Direction election"): opposite desires let the Download side win; equal
Download desires are decided by the strictly greater bet, the loser re-asking
for a connection when it still has a pending download; equal bets and double
Upload abort.  Used only to be compared with `nmdcKeyDirection`. -/
def specDirectionElection (localDirection remoteDirection : String)
    (localBet remoteBet : Nat) (hasPendingDownload : Bool) :
    Except String (String × Bool) :=
  if localDirection ≠ remoteDirection then
    .ok (localDirection, false)
  else if localDirection = "download" then
    if localBet > remoteBet then
      .ok ("download", false)
    else if remoteBet > localBet then
      .ok ("upload", hasPendingDownload)
    else
      .error "equal random numbers"
  else
    .error "double upload request"

/-- Lookup in the `connPeersByKey` index (the Go map is modelled as an
association list whose keys are unique). -/
def lookupKey : List (nickDirectionPair × Nat) → nickDirectionPair → Option Nat
  | [], _ => none
  | (k, v) :: rest, key => if k = key then some v else lookupKey rest key

/-- Registration of a handshake-completed connection in the
`connPeersByKey` index of the client, as performed identically by the `msgNmdcKey` case
(conn_peer.go lines 484-490) and the `msgAdcCInfos` case (lines 346-351,
361-365): if the key is already present the handler returns a protocol error
and the index is untouched, otherwise the connection id is inserted. -/
def registerConnByKey (index : List (nickDirectionPair × Nat))
    (key : nickDirectionPair) (p : Nat) :
    Except String Unit × List (nickDirectionPair × Nat) :=
  if (lookupKey index key).isSome then
    (.error "a connection with this peer and direction already exists", index)
  else
    (.ok (), (key, p) :: index)

/-- Configuration of a download (`DownloadConf`, download.go).  The TTH is
kept abstract as its base-32 string; `length` is the Go `int64` field. -/
structure DownloadConf where
  tth : String
  start : Nat
  length : Int
  savePath : String
  skipValidation : Bool
  isFilelist : Bool
deriving DecidableEq, Repr

/-- Normalization applied by `Client.DownloadFile` (download.go): a
configured `Length ≤ 0` means "whole file" and is stored as -1. -/
def normalizeLength (l : Int) : Int :=
  if l ≤ 0 then -1 else l

/-- Sink the download writes into (download.go `handleSendFile`): a file
`<SavePath>.tmp` on disk, or an in-RAM buffer of the declared size. -/
inductive WriterKind where
  | file : String → WriterKind
  | ram : Nat → WriterKind
deriving DecidableEq, Repr

/-- State reached when a `SendFile`/`CSND` reply is accepted
(download.go `handleSendFile`): the resolved transfer length, the switch of
the connection to binary read mode, the optional zlib reader, and the writer
that was set up. -/
structure SendFileAccept where
  length : Nat
  readBinary : Bool
  zlibReader : Bool
  writer : WriterKind
deriving DecidableEq, Repr

/-- `Download.handleSendFile` (download.go lines 300-349).  `query` is the
query the download sent; `createOk` is the outcome of `os.Create` on
`<SavePath>.tmp` (only consulted when a save path is configured).  Error
messages keep the constant part of the Go format strings. -/
def handleSendFile (query : String) (conf : DownloadConf)
    (peerDisableCompression : Bool) (createOk : Bool)
    (reqQuery : String) (reqStart : Nat) (reqLength : Nat)
    (reqCompressed : Bool) : Except String SendFileAccept :=
  if reqQuery ≠ query then
    .error "filename returned by client is wrong"
  else if reqStart ≠ conf.start then
    .error "peer returned wrong start"
  else
    if reqCompressed = true ∧ peerDisableCompression = true then
      .error "compression is active but is disabled"
    else
      let length : Nat := if conf.length = -1 then reqLength else conf.length.toNat
      if conf.length ≠ -1 ∧ length ≠ reqLength then
        .error "peer returned wrong length"
      else if length = 0 then
        .error "downloading null files is not supported"
      else
        if conf.savePath ≠ "" then
          if createOk then
            .ok { length := length, readBinary := true, zlibReader := reqCompressed,
                  writer := .file (conf.savePath ++ ".tmp") }
          else
            .error "unable to create destination file"
        else
          .ok { length := length, readBinary := true, zlibReader := reqCompressed,
                writer := .ram length }

/-- Per-download byte accounting while the connection streams binary data
(download.go `handleDownload`, `msgBinary` case): current offset, declared
length, and the total number of bytes handed to the writer. -/
structure DlBinaryState where
  offset : Nat
  length : Nat
  written : Nat
deriving DecidableEq, Repr

/-- One `msgBinary` chunk of `Download.handleDownload` (download.go lines
368-379): an overrun chunk fails the download before anything is written;
otherwise the chunk is written (counted even when the writer errors, since
`writer.Write` was invoked) and on a successful write the offset advances by
the chunk length.  `writeOk` is the outcome of `writer.Write`. -/
def handleBinaryChunk (writeOk : Bool) (s : DlBinaryState) (chunkLen : Nat) :
    DlBinaryState × Option String :=
  let newLength := s.offset + chunkLen
  if newLength > s.length then
    (s, some "binary content too long")
  else if writeOk = false then
    ({ s with written := s.written + chunkLen }, some "write error")
  else
    ({ s with offset := newLength, written := s.written + chunkLen }, none)

/-- Run of `handleBinaryChunk` over a sequence of chunks, each with its
writer outcome, stopping at the first error as the connection loop does. -/
def runBinary (s : DlBinaryState) : List (Nat × Bool) → DlBinaryState × Option String
  | [] => (s, none)
  | (c, w) :: rest =>
    match handleBinaryChunk w s c with
    | (s', none) => runBinary s' rest
    | (s', some e) => (s', some e)

/-- What the completion branch for a normal file does on disk
(download.go `handleDownload`, `msgBinary` case, offset = length, non-filelist
branch). -/
structure FinishOutcome where
  validated : Bool
  renamed : Bool
deriving DecidableEq, Repr

/-- Completion of a normal-file download (download.go lines 426-458):
validation runs exactly when `SkipValidation` is false, `Start` is 0 and the
configured `Length ≤ 0`; a TTH mismatch fails with "validation failed"; only
afterwards, and only when a save path is configured, `<SavePath>.tmp` is
renamed to `<SavePath>`.  `contentTTH` is the recomputed hash of the written
content, `tthReadOk` the outcome of `TTHFromFile`, `renameOk` of
`os.Rename`. -/
def finishNormalFile (conf : DownloadConf) (contentTTH : String)
    (tthReadOk renameOk : Bool) : Except String FinishOutcome :=
  if conf.skipValidation = false ∧ conf.start = 0 ∧ conf.length ≤ 0 then
    if conf.savePath ≠ "" ∧ tthReadOk = false then
      .error "tth read failed"
    else if contentTTH ≠ conf.tth then
      .error "validation failed"
    else if conf.savePath ≠ "" then
      if renameOk then .ok { validated := true, renamed := true }
      else .error "rename failed"
    else
      .ok { validated := true, renamed := false }
  else
    if conf.savePath ≠ "" then
      if renameOk then .ok { validated := false, renamed := true }
      else .error "rename failed"
    else
      .ok { validated := false, renamed := false }

/-- Errors a download run can end with; `errorTerminated` (the cooperative
shutdown sentinel of the source) is the distinguished `terminated`. -/
inductive DlErr where
  | terminated
  | other : String → DlErr
deriving DecidableEq, Repr

/-- The embedder-visible callbacks of a finished download. -/
inductive DlCallback where
  | onDownloadSuccessful
  | onDownloadError
deriving DecidableEq, Repr

/-- Callback selection of `Download.handleExit` (download.go lines 500-512):
a nil error invokes `OnDownloadSuccessful`, any non-nil error — the
`errorTerminated` sentinel included — invokes `OnDownloadError`.
`terminateRequested` is consulted by the source only for logging (line 468),
not for the callback choice. -/
def handleExitCallback (terminateRequested : Bool) (err : Option DlErr) :
    DlCallback :=
  match terminateRequested, err with
  | _, none => .onDownloadSuccessful
  | _, some _ => .onDownloadError

/-- Error with which the download routine exits when `Download.Close` is
called on a download in a wait state (download.go `Close` lines 176-187
posts to the terminate channel since the state is not "processing";
every wait in `Download.do` then returns `errorTerminated`). -/
def closeWaitStateExitErr (state : String) : Option (Option DlErr) :=
  if state ≠ "processing" then some (some .terminated) else none

/-- A shared file (`shareFile`, share.go): its TTH (as base-32 string), size
in bytes, number of 24-byte TTH leaves, and real path on disk. -/
structure shareFile where
  tth : String
  size : Nat
  tthlCount : Nat
  realPath : String
deriving DecidableEq, Repr

/-- A share directory (`shareDirectory`): files plus subdirectories. -/
inductive shareDirectory where
  | node : List shareFile → List shareDirectory → shareDirectory

mutual

/-- The recursive `scanDir` closure of `newUpload` (upload.go): first file of
the directory whose TTH matches, else the first hit in a subdirectory. -/
def scanDir (t : String) : shareDirectory → Option shareFile
  | .node files dirs =>
    match files.find? (fun f => f.tth == t) with
    | some f => some f
    | none => scanDirs t dirs

/-- The enclosing loop of `newUpload` over `client.shareTree`: first
directory yielding a hit wins. -/
def scanDirs (t : String) : List shareDirectory → Option shareFile
  | [] => none
  | d :: rest =>
    match scanDir t d with
    | some f => some f
    | none => scanDirs t rest

end

mutual

/-- Whether some file anywhere in a share directory has the given TTH. -/
def dirContainsTTH (t : String) : shareDirectory → Bool
  | .node files dirs => files.any (fun f => f.tth == t) || dirsContainTTH t dirs

/-- Whether some file anywhere in a list of share directories has the TTH. -/
def dirsContainTTH (t : String) : List shareDirectory → Bool
  | [] => false
  | d :: rest => dirContainsTTH t d || dirsContainTTH t rest

end

/-- Whether a character belongs to the RFC-4648 base-32 alphabet. -/
def isBase32Char (c : Char) : Bool :=
  (c ≥ 'A' ∧ c ≤ 'Z') ∨ (c ≥ '2' ∧ c ≤ '7')

/-- Modelled from the spec: `TigerHashFromBase32` (tiger.go, not under
src/).  Per §3, a TigerHash is a 24-byte value "Encoded as 39-character
base-32 (no padding)"; decoding succeeds exactly on such strings, and the
hash is identified with its encoding. -/
def TigerHashFromBase32 (s : String) : Except String String :=
  if s.length = 39 ∧ s.toList.all isBase32Char then .ok s
  else .error "the provided string is not a valid base32"

/-- Where the bytes of an accepted upload come from (upload.go
`newUpload`). -/
inductive ReaderKind where
  | fileListBuf
  | tthlBuf
  | diskFile : String → ReaderKind
deriving DecidableEq, Repr

/-- The two errors of `newUpload` that select different replies:
`errorNoSlots` against every other error value. -/
inductive UploadErr where
  | noSlots
  | other : String → UploadErr
deriving DecidableEq, Repr

/-- The client-side inputs of `newUpload` (upload.go): slot counter,
protocol flavour, compression setting, length of the cached file list,
share tree, and the operating-system outcomes of `os.Open` and `File.Seek`
per path. -/
structure UploadEnv where
  uploadSlotAvail : Int
  protoIsAdc : Bool
  peerDisableCompression : Bool
  fileListLen : Nat
  shareTree : List shareDirectory
  openOk : String → Bool
  seekOk : String → Nat → Bool

/-- The inner error closure of `newUpload` (upload.go lines 560-655 of the
current revision): slot check, file-list branch, base-32 decoding of
`query[9:]`, share-tree scan, tthl branch, file open, seek, and length
resolution.  `uint64` arithmetic on `size - start` and on the `int64` to
`uint64` conversion of the requested length is taken modulo 2^64. -/
def uploadTryStart (env : UploadEnv) (query : String) (start : Nat)
    (reqLength : Int) : Except UploadErr (Nat × ReaderKind) :=
  if env.uploadSlotAvail ≤ 0 then
    .error .noSlots
  else if query = "file files.xml.bz2" then
    if start ≠ 0 ∨ reqLength ≠ -1 then
      .error (.other "filelist seeking is not supported")
    else
      .ok (env.fileListLen, .fileListBuf)
  else
    let tthString := query.drop 9
    match TigerHashFromBase32 tthString with
    | .error e => .error (.other e)
    | .ok tth =>
      match scanDirs tth env.shareTree with
      | none => .error (.other "file does not exists")
      | some sfile =>
        if query.startsWith "tthl" then
          if start ≠ 0 ∨ reqLength ≠ -1 then
            .error (.other "tthl seeking is not supported")
          else
            .ok (24 * sfile.tthlCount, .tthlBuf)
        else
          if env.openOk sfile.realPath = false then
            .error (.other "open failed")
          else if env.seekOk sfile.realPath start = false then
            .error (.other "seek failed")
          else
            let maxLength : Nat := (sfile.size + (2 ^ 64 - start % 2 ^ 64)) % 2 ^ 64
            if reqLength ≠ -1 then
              if (reqLength % (2 ^ 64 : Int)).toNat > maxLength then
                .error (.other "length too big")
              else
                .ok ((reqLength % (2 ^ 64 : Int)).toNat, .diskFile sfile.realPath)
            else
              .ok (maxLength, .diskFile sfile.realPath)

/-- ADC status codes used by `newUpload` (constants of adc.go). -/
inductive AdcCode where
  | slotsFull
  | fileNotAvailable
deriving DecidableEq, Repr

/-- The protocol message `newUpload` writes back to the requesting peer. -/
inductive UploadReply where
  | adcStatusWarn : AdcCode → String → UploadReply
  | nmdcMaxedOut
  | nmdcError : String → UploadReply
  | adcSendFile : String → Nat → Nat → Bool → UploadReply
  | nmdcSendFile : String → Nat → Nat → Bool → UploadReply
deriving DecidableEq, Repr

/-- Result of `newUpload`: the reply written to the peer, whether the upload
was registered and the connection delegated, and the change applied to
`uploadSlotAvail`. -/
structure UploadOutcome where
  reply : UploadReply
  started : Bool
  slotDelta : Int
deriving DecidableEq, Repr

/-- `newUpload` (upload.go lines 544-713 of the current revision): run the
inner closure; on `errorNoSlots` reply `MaxedOut` (NMDC) or an ADC warning
status with code slots-full and "Slots full"; on any other error reply
`Error File Not Available` (NMDC) or an ADC warning with code
file-not-available and "File Not Available"; on success emit
`SendFile`/`CSND` echoing query and start with the resolved length, register
the upload and consume one slot. -/
def newUpload (env : UploadEnv) (reqQuery : String) (reqStart : Nat)
    (reqLength : Int) (reqCompressed : Bool) : UploadOutcome :=
  let isCompressed := env.peerDisableCompression = false ∧ reqCompressed = true
  match uploadTryStart env reqQuery reqStart reqLength with
  | .error .noSlots =>
    { reply :=
        if env.protoIsAdc then .adcStatusWarn .slotsFull "Slots full"
        else .nmdcMaxedOut,
      started := false, slotDelta := 0 }
  | .error (.other _) =>
    { reply :=
        if env.protoIsAdc then .adcStatusWarn .fileNotAvailable "File Not Available"
        else .nmdcError "File Not Available",
      started := false, slotDelta := 0 }
  | .ok (len, _) =>
    { reply :=
        if env.protoIsAdc then .adcSendFile reqQuery reqStart len isCompressed
        else .nmdcSendFile reqQuery reqStart len isCompressed,
      started := true, slotDelta := -1 }

/-- Side effect performed by `connPeer.terminate` besides the state change. -/
inductive TermEffect where
  | noop
  | wakeUpSent
  | connTerminated
deriving DecidableEq, Repr

/-- `connPeer.terminate` (conn_peer.go lines 82-99): a no-op when already
terminated; allowed from `pre_connecting`, `pre_connected` (nothing to do),
`connecting` (posts to the wake-up channel) and `connected` (terminates the
socket), always ending in state "terminated"; every other state — in
particular `delegated_upload` and `delegated_download` — hits the `default`
branch, which panics.  A panic is `none`. -/
def connPeerTerminate (state : String) : Option (String × TermEffect) :=
  if state = "terminated" then
    some ("terminated", .noop)
  else if state = "pre_connecting" ∨ state = "pre_connected" then
    some ("terminated", .noop)
  else if state = "connecting" then
    some ("terminated", .wakeUpSent)
  else if state = "connected" then
    some ("terminated", .connTerminated)
  else
    none

/-- The two slot counters of the client (client.go fields
`downloadSlotAvail`, `uploadSlotAvail`). -/
structure SlotState where
  downloadSlotAvail : Int
  uploadSlotAvail : Int
deriving DecidableEq, Repr

/-- The events that touch the slot counters.  `downloadAcquire` is the slot
stage of `Download.do` (download.go lines 212-229); `downloadExit hasWaiter`
is the slot section of `Download.handleExit` (lines 487-498), where
`hasWaiter` says whether a download in state "waiting_slot" exists;
`uploadStart restOk` is `newUpload`, where `restOk` says whether everything
after the slot check succeeded; `uploadExit` is `upload.handleExit`. -/
inductive SlotEvent where
  | downloadAcquire
  | downloadExit : Bool → SlotEvent
  | uploadStart : Bool → SlotEvent
  | uploadExit
deriving DecidableEq, Repr

/-- Effect of one event on the counters, as the cited code performs it: a
decrement happens only behind a positivity check, or (in `downloadExit`)
immediately after the increment that freed the slot being handed over. -/
def slotStep (s : SlotState) : SlotEvent → SlotState
  | .downloadAcquire =>
    if s.downloadSlotAvail ≤ 0 then s
    else { s with downloadSlotAvail := s.downloadSlotAvail - 1 }
  | .downloadExit hasWaiter =>
    let s' := { s with downloadSlotAvail := s.downloadSlotAvail + 1 }
    if hasWaiter then { s' with downloadSlotAvail := s'.downloadSlotAvail - 1 }
    else s'
  | .uploadStart restOk =>
    if s.uploadSlotAvail ≤ 0 then s
    else if restOk then { s with uploadSlotAvail := s.uploadSlotAvail - 1 }
    else s
  | .uploadExit =>
    { s with uploadSlotAvail := s.uploadSlotAvail + 1 }

/-- Folding a sequence of slot events. -/
def runSlotEvents (s : SlotState) : List SlotEvent → SlotState
  | [] => s
  | e :: rest => runSlotEvents (slotStep s e) rest

/-! ### Theorems -/

/-- A key that `lookupKey` misses is not among the stored keys. -/
theorem lookupKey_none_not_mem (m : List (nickDirectionPair × Nat))
    (key : nickDirectionPair) (h : lookupKey m key = none) :
    key ∉ m.map Prod.fst := by
  induction m with
  | nil => simp
  | cons kv rest ih =>
    obtain ⟨k, v⟩ := kv
    rw [lookupKey] at h
    by_cases hk : k = key
    · simp [hk] at h
    · simp only [if_neg hk] at h
      simp only [List.map_cons, List.mem_cons]
      rintro (rfl | hmem)
      · exact hk rfl
      · exact ih h hmem

/-- C1: once both Direction messages and the Key message have arrived, the
NMDC handshake resolves the transfer direction exactly as the specification
describes: with differing desires the Download side downloads; with two
Download desires the strictly greater bet downloads and the loser re-requests
a connection exactly when it still has a pending download, equal bets failing
with "equal random numbers"; two Upload desires fail with "double upload
request". -/
theorem nmdcKey_direction_matches_spec (ld rd : String) (lb rb : Nat)
    (pending : Bool) (hl : ld = "download" ∨ ld = "upload")
    (hr : rd = "download" ∨ rd = "upload") :
    nmdcKeyDirection ld rd lb rb pending =
      specDirectionElection ld rd lb rb pending := by
  rcases hl with rfl | rfl <;> rcases hr with rfl | rfl <;>
    simp only [nmdcKeyDirection, specDirectionElection] <;> simp

/-- Witness for `nmdcKey_direction_matches_spec` at a concrete input. -/
theorem nmdcKey_direction_matches_spec_witness :
    nmdcKeyDirection "download" "download" 7 7 true =
      specDirectionElection "download" "download" 7 7 true :=
  nmdcKey_direction_matches_spec "download" "download" 7 7 true
    (Or.inl rfl) (Or.inl rfl)

/-- C2: the connection index keeps at most one connection per
(nick, direction): inserting a key that is already present returns the
protocol error and leaves the index unchanged, and registration preserves
the uniqueness of the stored keys. -/
theorem connPeersByKey_at_most_one (m : List (nickDirectionPair × Nat))
    (key : nickDirectionPair) (p : Nat)
    (hnodup : (m.map Prod.fst).Nodup) :
    (∀ q, lookupKey m key = some q →
      registerConnByKey m key p =
        (.error "a connection with this peer and direction already exists", m))
    ∧ ((registerConnByKey m key p).2.map Prod.fst).Nodup := by
  constructor
  · intro q hq
    rw [registerConnByKey, if_pos (by rw [hq]; rfl)]
  · rw [registerConnByKey]
    by_cases hlk : (lookupKey m key).isSome = true
    · rw [if_pos hlk]
      exact hnodup
    · rw [if_neg hlk]
      simp only [List.map_cons]
      exact List.Nodup.cons
        (lookupKey_none_not_mem m key (Option.not_isSome_iff_eq_none.mp hlk))
        hnodup

/-- Witness for `connPeersByKey_at_most_one` at a concrete index holding the
key being inserted. -/
theorem connPeersByKey_at_most_one_witness :
    registerConnByKey [(⟨"bob", "download"⟩, 1)] ⟨"bob", "download"⟩ 2 =
      (.error "a connection with this peer and direction already exists",
       [(⟨"bob", "download"⟩, 1)]) :=
  (connPeersByKey_at_most_one [(⟨"bob", "download"⟩, 1)] ⟨"bob", "download"⟩ 2
    (by simp)).1 1 rfl

/-- Unfolding of `handleBinaryChunk` with its local `newLength` reduced. -/
theorem handleBinaryChunk_eq (w : Bool) (s : DlBinaryState) (c : Nat) :
    handleBinaryChunk w s c =
      if s.offset + c > s.length then (s, some "binary content too long")
      else if w = false then
        ({ s with written := s.written + c }, some "write error")
      else
        ({ s with offset := s.offset + c, written := s.written + c }, none) :=
  rfl

/-- C5: a binary chunk that would exceed the declared length fails the
download with "binary content too long" without writing; otherwise the chunk
is written and the offset advances by its length; consequently, starting from
a consistent state, the bytes ever written never exceed the declared
length. -/
theorem binary_never_exceeds_length (s : DlBinaryState) (c : Nat) (w : Bool)
    (l : List (Nat × Bool)) (hw : s.written ≤ s.offset)
    (hlen : s.offset ≤ s.length) :
    (s.offset + c > s.length →
      handleBinaryChunk w s c = (s, some "binary content too long"))
    ∧ (s.offset + c ≤ s.length →
      handleBinaryChunk true s c =
        ({ offset := s.offset + c, length := s.length,
           written := s.written + c }, none))
    ∧ (runBinary s l).1.written ≤ s.length := by
  refine ⟨fun hover => ?_, fun hok => ?_, ?_⟩
  · rw [handleBinaryChunk_eq, if_pos hover]
  · rw [handleBinaryChunk_eq, if_neg (by omega)]
    rfl
  · induction l generalizing s with
    | nil => exact le_trans hw hlen
    | cons cw rest ih =>
      obtain ⟨c', w'⟩ := cw
      rw [runBinary, handleBinaryChunk_eq]
      by_cases hover : s.offset + c' > s.length
      · rw [if_pos hover]
        exact le_trans hw hlen
      · rw [if_neg hover]
        cases w' with
        | false =>
          show s.written + c' ≤ s.length
          omega
        | true =>
          exact ih { offset := s.offset + c', length := s.length,
                     written := s.written + c' } (by dsimp only; omega)
            (by dsimp only; omega)

/-- Witness for `binary_never_exceeds_length` at a concrete state and
chunk sequence. -/
theorem binary_never_exceeds_length_witness :
    (runBinary ⟨0, 5, 0⟩ [(3, true), (4, true)]).1.written ≤
      (⟨0, 5, 0⟩ : DlBinaryState).length :=
  (binary_never_exceeds_length ⟨0, 5, 0⟩ 3 true [(3, true), (4, true)]
    (by decide) (by decide)).2.2

/-- C7: starting from nonnegative counters, no sequence of download/upload
start, completion and failure events drives `downloadSlotAvail` or
`uploadSlotAvail` below zero. -/
theorem slot_counters_never_negative (s : SlotState) (l : List SlotEvent)
    (hd : 0 ≤ s.downloadSlotAvail) (hu : 0 ≤ s.uploadSlotAvail) :
    0 ≤ (runSlotEvents s l).downloadSlotAvail
    ∧ 0 ≤ (runSlotEvents s l).uploadSlotAvail := by
  induction l generalizing s with
  | nil => exact ⟨hd, hu⟩
  | cons e rest ih =>
    rw [runSlotEvents]
    have hstep : 0 ≤ (slotStep s e).downloadSlotAvail
        ∧ 0 ≤ (slotStep s e).uploadSlotAvail := by
      cases e <;> dsimp only [slotStep] <;>
        repeat' first
          | (constructor <;> omega)
          | split
          | dsimp only
    exact ih _ hstep.1 hstep.2

/-- Witness for `slot_counters_never_negative` at concrete counters and a
concrete event sequence. -/
theorem slot_counters_never_negative_witness :
    0 ≤ (runSlotEvents ⟨1, 1⟩
          [.downloadAcquire, .uploadStart true, .downloadExit true,
           .uploadExit, .downloadAcquire]).downloadSlotAvail
    ∧ 0 ≤ (runSlotEvents ⟨1, 1⟩
          [.downloadAcquire, .uploadStart true, .downloadExit true,
           .uploadExit, .downloadAcquire]).uploadSlotAvail :=
  slot_counters_never_negative ⟨1, 1⟩
    [.downloadAcquire, .uploadStart true, .downloadExit true,
     .uploadExit, .downloadAcquire] (by decide) (by decide)

/-- C8 counterexample: `terminate()` is not permitted in every FSM state —
invoked on a connection in state `delegated_download` it reaches the
`default` branch of the switch and panics (modelled as `none`). -/
theorem terminate_panics_when_delegated :
    connPeerTerminate "delegated_download" = none := by decide

/-- C8 (amended): `terminate()` completes without panicking exactly in the
states `pre_connecting`, `pre_connected`, `connecting`, `connected` and
`terminated`, leaving the connection in state `terminated` (posting the
wake-up from `connecting`, closing the socket from `connected`); in
`delegated_upload` and `delegated_download` it panics. -/
theorem terminate_state_table :
    connPeerTerminate "pre_connecting" = some ("terminated", .noop)
    ∧ connPeerTerminate "pre_connected" = some ("terminated", .noop)
    ∧ connPeerTerminate "connecting" = some ("terminated", .wakeUpSent)
    ∧ connPeerTerminate "connected" = some ("terminated", .connTerminated)
    ∧ connPeerTerminate "terminated" = some ("terminated", .noop)
    ∧ connPeerTerminate "delegated_upload" = none
    ∧ connPeerTerminate "delegated_download" = none := by decide

/-- C9: evaluation of the code at the failing input.  Closing a download in
a wait state makes its routine exit with the `errorTerminated` sentinel, and
`handleExit` then invokes `OnDownloadError` — although the documentation
comment on `Close` promises that neither callback is called. -/
theorem close_wait_state_invokes_error_callback :
    closeWaitStateExitErr "waiting_slot" = some (some .terminated)
    ∧ handleExitCallback true (some .terminated) = .onDownloadError := by
  exact ⟨by decide, rfl⟩

/-- Unfolding of `handleSendFile` with the local `length` reduced. -/
theorem handleSendFile_eq (query : String) (conf : DownloadConf)
    (pdc createOk : Bool) (rq : String) (rs rl : Nat) (rc : Bool) :
    handleSendFile query conf pdc createOk rq rs rl rc =
      (if rq ≠ query then .error "filename returned by client is wrong"
       else if rs ≠ conf.start then .error "peer returned wrong start"
       else if rc = true ∧ pdc = true then
         .error "compression is active but is disabled"
       else if conf.length ≠ -1 ∧
           (if conf.length = -1 then rl else conf.length.toNat) ≠ rl then
         .error "peer returned wrong length"
       else if (if conf.length = -1 then rl else conf.length.toNat) = 0 then
         .error "downloading null files is not supported"
       else if conf.savePath ≠ "" then
         if createOk then
           .ok { length := if conf.length = -1 then rl else conf.length.toNat,
                 readBinary := true, zlibReader := rc,
                 writer := .file (conf.savePath ++ ".tmp") }
         else .error "unable to create destination file"
       else
         .ok { length := if conf.length = -1 then rl else conf.length.toNat,
               readBinary := true, zlibReader := rc,
               writer := .ram (if conf.length = -1 then rl
                               else conf.length.toNat) }) :=
  rfl

/-- C3: a `SendFile`/`CSND` reply in state processing is rejected when the
echoed query differs from the one sent, when the echoed start differs from
the requested one, when it is marked compressed though compression was
disabled, or when the requested length was not -1 and the echoed length
differs from it; when none of these holds and the effective length is
nonzero (and the destination writer can be set up) the reply is accepted
and the connection switches to binary read mode. -/
theorem sendFile_reply_validation (query : String) (conf : DownloadConf)
    (pdc createOk : Bool) (rq : String) (rs rl : Nat) (rc : Bool)
    (hnorm : conf.length = -1 ∨ 0 < conf.length) :
    (rq ≠ query →
      ∃ e, handleSendFile query conf pdc createOk rq rs rl rc = .error e)
    ∧ (rs ≠ conf.start →
      ∃ e, handleSendFile query conf pdc createOk rq rs rl rc = .error e)
    ∧ (rc = true → pdc = true →
      ∃ e, handleSendFile query conf pdc createOk rq rs rl rc = .error e)
    ∧ (conf.length ≠ -1 → (rl : Int) ≠ conf.length →
      ∃ e, handleSendFile query conf pdc createOk rq rs rl rc = .error e)
    ∧ (rq = query → rs = conf.start → ¬(rc = true ∧ pdc = true) →
      (conf.length = -1 ∨ (rl : Int) = conf.length) → 0 < rl →
      (conf.savePath = "" ∨ createOk = true) →
      handleSendFile query conf pdc createOk rq rs rl rc =
        .ok { length := rl, readBinary := true, zlibReader := rc,
              writer := if conf.savePath ≠ "" then
                          .file (conf.savePath ++ ".tmp")
                        else .ram rl }) := by
  refine ⟨fun h => ?_, fun h => ?_, fun hc hp => ?_, fun hL hne => ?_,
    fun hq hs hcp hlen hpos hcreate => ?_⟩
  · rw [handleSendFile_eq, if_pos h]
    exact ⟨_, rfl⟩
  · rw [handleSendFile_eq]
    split_ifs <;> first | exact ⟨_, rfl⟩ | tauto
  · rw [handleSendFile_eq]
    split_ifs <;> first | exact ⟨_, rfl⟩ | tauto
  · rw [handleSendFile_eq]
    split_ifs <;> first
      | exact ⟨_, rfl⟩
      | (exfalso; rcases hnorm with h0 | h0 <;> simp_all <;> omega)
  · have heff : (if conf.length = -1 then rl else conf.length.toNat) = rl := by
      rcases hlen with h | h
      · rw [if_pos h]
      · have hne1 : conf.length ≠ -1 := by omega
        rw [if_neg hne1]
        omega
    rw [handleSendFile_eq, heff, if_neg (not_not_intro hq),
      if_neg (not_not_intro hs), if_neg hcp, if_neg (by simp),
      if_neg (by omega)]
    by_cases hsp : conf.savePath ≠ ""
    · rw [if_pos hsp, if_pos (hcreate.resolve_left hsp), if_pos hsp]
    · rw [if_neg hsp, if_neg hsp]

/-- Witness for `sendFile_reply_validation`: a matching reply is accepted
with binary read mode on. -/
theorem sendFile_reply_validation_witness :
    handleSendFile "file TTH/T" ⟨"T", 0, -1, "", false, false⟩ false true
        "file TTH/T" 0 7 false =
      .ok { length := 7, readBinary := true, zlibReader := false,
            writer := .ram 7 } :=
  (sendFile_reply_validation "file TTH/T" ⟨"T", 0, -1, "", false, false⟩
    false true "file TTH/T" 0 7 false (Or.inl rfl)).2.2.2.2 rfl rfl
    (by simp) (Or.inl rfl) (by norm_num) (Or.inl rfl)

/-- C4: for a finished normal-file download, the TTH of the written content
is required to equal the configured TTH exactly when `SkipValidation` is
false, `Start` is 0 and the configured `Length` was at most 0, a mismatch
failing with "validation failed"; in every other case validation is skipped;
and with a save path configured the bytes go to `<SavePath>.tmp` during the
transfer, which is renamed to `<SavePath>` only after the validation step
passes. -/
theorem download_validation_and_rename (conf : DownloadConf)
    (contentTTH : String) (tthReadOk renameOk : Bool) (query : String)
    (pdc createOk : Bool) (rq : String) (rs rl : Nat) (rc : Bool) :
    ((conf.skipValidation = false ∧ conf.start = 0 ∧ conf.length ≤ 0) →
      (conf.savePath = "" ∨ tthReadOk = true) → contentTTH ≠ conf.tth →
      finishNormalFile conf contentTTH tthReadOk renameOk
        = .error "validation failed")
    ∧ (∀ o, finishNormalFile conf contentTTH tthReadOk renameOk = .ok o →
      (o.validated = true ↔
        (conf.skipValidation = false ∧ conf.start = 0 ∧ conf.length ≤ 0)))
    ∧ (∀ o, finishNormalFile conf contentTTH tthReadOk renameOk = .ok o →
      o.renamed = true → conf.savePath ≠ "" ∧ renameOk = true)
    ∧ ((conf.skipValidation = false ∧ conf.start = 0 ∧ conf.length ≤ 0) →
      (conf.savePath = "" ∨ tthReadOk = true) → contentTTH ≠ conf.tth →
      ∀ o, finishNormalFile conf contentTTH tthReadOk renameOk ≠ .ok o)
    ∧ ((conf.skipValidation = false ∧ conf.start = 0 ∧ conf.length ≤ 0) →
      contentTTH = conf.tth → conf.savePath ≠ "" → tthReadOk = true →
      renameOk = true →
      finishNormalFile conf contentTTH tthReadOk renameOk
        = .ok { validated := true, renamed := true })
    ∧ (∀ a, handleSendFile query conf pdc createOk rq rs rl rc = .ok a →
      conf.savePath ≠ "" → a.writer = .file (conf.savePath ++ ".tmp")) := by
  refine ⟨fun hreq hread hne => ?_, fun o ho => ?_, fun o ho hr => ?_,
    fun hreq hread hne o ho => ?_, fun hreq heq hsp hread hren => ?_,
    fun a ha hsp => ?_⟩
  · rw [finishNormalFile, if_pos hreq,
      if_neg (by rcases hread with h | h <;> simp [h]), if_pos hne]
  · rw [finishNormalFile] at ho
    split_ifs at ho with h1 h2 h3 h4 h5 h6 h7 <;> cases ho <;> simp_all
  · rw [finishNormalFile] at ho
    split_ifs at ho with h1 h2 h3 h4 h5 h6 h7 <;> cases ho <;> simp_all
  · rw [finishNormalFile, if_pos hreq,
      if_neg (by rcases hread with h | h <;> simp [h]), if_pos hne] at ho
    cases ho
  · rw [finishNormalFile, if_pos hreq, if_neg (by simp [hread]),
      if_neg (not_not_intro heq), if_pos hsp, if_pos hren]
  · rw [handleSendFile_eq] at ha
    split_ifs at ha <;> cases ha <;> simp_all

/-- Witness for `download_validation_and_rename`: a whole-file download
whose recomputed TTH differs from the configured one fails with
"validation failed". -/
theorem download_validation_and_rename_witness :
    finishNormalFile ⟨"T", 0, -1, "p", false, false⟩ "X" true true =
      .error "validation failed" :=
  (download_validation_and_rename ⟨"T", 0, -1, "p", false, false⟩ "X" true
    true "q" false true "q" 0 7 false).1 ⟨rfl, rfl, by norm_num⟩
    (Or.inr rfl) (by decide)

mutual

/-- `scanDir` misses exactly when no file of the directory tree has the
looked-up TTH. -/
theorem scanDir_eq_none (t : String) (d : shareDirectory) :
    scanDir t d = none ↔ dirContainsTTH t d = false := by
  cases d with
  | node files dirs =>
    rw [scanDir, dirContainsTTH]
    cases hf : files.find? (fun f => f.tth == t) with
    | some f =>
      have hmem := List.mem_of_find?_eq_some hf
      have hp := List.find?_some hf
      have hany : files.any (fun f => f.tth == t) = true :=
        List.any_eq_true.mpr ⟨f, hmem, hp⟩
      simp [hany]
    | none =>
      have hany : files.any (fun f => f.tth == t) = false := by
        rw [List.any_eq_false]
        intro x hx
        simpa using List.find?_eq_none.mp hf x hx
      rw [hany, Bool.false_or]
      exact scanDirs_eq_none t dirs

/-- `scanDirs` misses exactly when no file of any of the directories has the
looked-up TTH. -/
theorem scanDirs_eq_none (t : String) (l : List shareDirectory) :
    scanDirs t l = none ↔ dirsContainTTH t l = false := by
  cases l with
  | nil => simp [scanDirs, dirsContainTTH]
  | cons d rest =>
    rw [scanDirs, dirsContainTTH]
    cases hd : scanDir t d with
    | some f =>
      have hc : dirContainsTTH t d = true := by
        rcases hcontain : dirContainsTTH t d with _ | _
        · rw [(scanDir_eq_none t d).mpr hcontain] at hd
          cases hd
        · rfl
      simp [hc]
    | none =>
      have hc : dirContainsTTH t d = false := (scanDir_eq_none t d).mp hd
      rw [hc, Bool.false_or]
      exact scanDirs_eq_none t rest

end

/-- C6: an upload request finding no free slot is answered with `MaxedOut`
(NMDC) or an ADC warning status "Slots full" with the slots-full code; one
whose TTH is nowhere in the share tree is answered with `Error File Not
Available` (NMDC) or an ADC warning with the file-not-available code; in
both cases no upload is registered, no slot is consumed and no
`SendFile` is emitted. -/
theorem upload_no_slot_and_missing_file (env : UploadEnv) (q : String)
    (st : Nat) (len : Int) (cmp : Bool) :
    (env.uploadSlotAvail ≤ 0 →
      newUpload env q st len cmp =
        { reply := if env.protoIsAdc then .adcStatusWarn .slotsFull "Slots full"
                   else .nmdcMaxedOut,
          started := false, slotDelta := 0 })
    ∧ (0 < env.uploadSlotAvail → q ≠ "file files.xml.bz2" →
      ∀ t, TigerHashFromBase32 (q.drop 9) = .ok t →
      dirsContainTTH t env.shareTree = false →
      newUpload env q st len cmp =
        { reply := if env.protoIsAdc
                     then .adcStatusWarn .fileNotAvailable "File Not Available"
                   else .nmdcError "File Not Available",
          started := false, slotDelta := 0 }) := by
  constructor
  · intro h
    have h1 : uploadTryStart env q st len = .error .noSlots := by
      rw [uploadTryStart, if_pos h]
    simp [newUpload, h1]
  · intro hpos hq t ht hcon
    have hscan : scanDirs t env.shareTree = none :=
      (scanDirs_eq_none t env.shareTree).mpr hcon
    have h1 : uploadTryStart env q st len
        = .error (.other "file does not exists") := by
      simp only [uploadTryStart]
      rw [if_neg (by omega), if_neg hq, ht]
      dsimp only
      rw [hscan]
    simp [newUpload, h1]

/-- Witness for `upload_no_slot_and_missing_file`: a TTH absent from an
empty share tree is answered File Not Available. -/
theorem upload_no_slot_and_missing_file_witness :
    newUpload ⟨1, false, false, 0, [], fun _ => true, fun _ _ => true⟩
        "file TTH/AAAAAAAAAAAAAAAAAAAAAAAAAAAAAAAAAAAAAAA" 0 (-1) false =
      { reply := .nmdcError "File Not Available",
        started := false, slotDelta := 0 } :=
  (upload_no_slot_and_missing_file
    ⟨1, false, false, 0, [], fun _ => true, fun _ _ => true⟩
    "file TTH/AAAAAAAAAAAAAAAAAAAAAAAAAAAAAAAAAAAAAAA" 0 (-1) false).2
    (by norm_num) (by decide) "AAAAAAAAAAAAAAAAAAAAAAAAAAAAAAAAAAAAAAA"
    rfl rfl

/-- C10: every failure of `newUpload` other than slot exhaustion — the
inner closure returning any error distinct from `errorNoSlots` — is answered
with the same File Not Available reply as a missing file, the upload not
being started; and each of the listed causes (file-list or tthl seeking,
invalid base-32 TTH, a too-big requested length, a local open or seek error)
produces such an error, so the requesting peer cannot tell them apart from
an absent file. -/
theorem upload_failures_look_like_missing_file (env : UploadEnv) (q : String)
    (st : Nat) (len : Int) (cmp : Bool) :
    (∀ e, uploadTryStart env q st len = .error (.other e) →
      newUpload env q st len cmp =
        { reply := if env.protoIsAdc
                     then .adcStatusWarn .fileNotAvailable "File Not Available"
                   else .nmdcError "File Not Available",
          started := false, slotDelta := 0 })
    ∧ (0 < env.uploadSlotAvail →
      ((q = "file files.xml.bz2" → st ≠ 0 ∨ len ≠ -1 →
        uploadTryStart env q st len
          = .error (.other "filelist seeking is not supported"))
       ∧ (q ≠ "file files.xml.bz2" →
         ∀ e, TigerHashFromBase32 (q.drop 9) = .error e →
         uploadTryStart env q st len = .error (.other e))
       ∧ (∀ t sfile, q ≠ "file files.xml.bz2" →
         TigerHashFromBase32 (q.drop 9) = .ok t →
         scanDirs t env.shareTree = some sfile →
         ((q.startsWith "tthl" = true → st ≠ 0 ∨ len ≠ -1 →
           uploadTryStart env q st len
             = .error (.other "tthl seeking is not supported"))
          ∧ (q.startsWith "tthl" = false → env.openOk sfile.realPath = false →
            uploadTryStart env q st len = .error (.other "open failed"))
          ∧ (q.startsWith "tthl" = false → env.openOk sfile.realPath = true →
            env.seekOk sfile.realPath st = false →
            uploadTryStart env q st len = .error (.other "seek failed"))
          ∧ (q.startsWith "tthl" = false → env.openOk sfile.realPath = true →
            env.seekOk sfile.realPath st = true → len ≠ -1 →
            (len % (2 ^ 64 : Int)).toNat
              > (sfile.size + (2 ^ 64 - st % 2 ^ 64)) % 2 ^ 64 →
            uploadTryStart env q st len
              = .error (.other "length too big")))))) := by
  constructor
  · intro e he
    simp [newUpload, he]
  · intro hpos
    refine ⟨fun hq hseek => ?_, fun hq e he => ?_,
      fun t sfile hq ht hscan => ⟨fun htthl hseek => ?_, fun htthl hopen => ?_,
        fun htthl hopen hsk => ?_, fun htthl hopen hsk hlen hbig => ?_⟩⟩
    · rw [uploadTryStart, if_neg (by omega), if_pos hq, if_pos hseek]
    · simp only [uploadTryStart]
      rw [if_neg (by omega), if_neg hq, he]
    · simp only [uploadTryStart]
      rw [if_neg (by omega), if_neg hq, ht]
      dsimp only
      rw [hscan]
      dsimp only
      rw [if_pos htthl, if_pos hseek]
    · simp only [uploadTryStart]
      rw [if_neg (by omega), if_neg hq, ht]
      dsimp only
      rw [hscan]
      dsimp only
      rw [if_neg (by simp [htthl]), if_pos (by simp [hopen])]
    · simp only [uploadTryStart]
      rw [if_neg (by omega), if_neg hq, ht]
      dsimp only
      rw [hscan]
      dsimp only
      rw [if_neg (by simp [htthl]), if_neg (by simp [hopen]),
        if_pos (by simp [hsk])]
    · simp only [uploadTryStart]
      rw [if_neg (by omega), if_neg hq, ht]
      dsimp only
      rw [hscan]
      dsimp only
      rw [if_neg (by simp [htthl]), if_neg (by simp [hopen]),
        if_neg (by simp [hsk]), if_pos hlen, if_pos hbig]

/-- Witness for `upload_failures_look_like_missing_file`: a file-list
request with a nonzero start is refused as File Not Available. -/
theorem upload_failures_look_like_missing_file_witness :
    newUpload ⟨1, false, false, 0, [], fun _ => true, fun _ _ => true⟩
        "file files.xml.bz2" 1 (-1) false =
      { reply := .nmdcError "File Not Available",
        started := false, slotDelta := 0 } := by
  have h := upload_failures_look_like_missing_file
    ⟨1, false, false, 0, [], fun _ => true, fun _ _ => true⟩
    "file files.xml.bz2" 1 (-1) false
  have herr := (h.2 (by norm_num)).1 rfl (Or.inl (by norm_num))
  exact h.1 "filelist seeking is not supported" herr

end Dctoolkit
